import Mathlib

/-!
Verification of the tts-addon playback-control scripts.

The embedding models:
  * `TTSController` from `tts_gui.py` (fields `afplay_pid`, `is_playing`,
    `is_paused`; methods `start_playback`, `pause_playback`,
    `resume_playback`, `stop_playback`).  `os.kill` is modelled by a
    boolean `alive` flag per call: `true` means the signal was delivered,
    `false` means `os.kill` raised (process gone), which the bare
    `except:` of the source turns into a `False` return.
  * `VoiceInterruptController` from `voice_interrupt_gui.py`
    (`find_audio_processes`, `stop_all_audio`, `pause_all_audio`,
    `resume_all_audio`).  Process discovery (`pgrep`) is an environment
    input; per-pid `os.kill` success is an `alive : Nat → Bool` oracle.
  * the text-cleanup and truncation step of `fast_read` in `fast_tts.py`,
    over `List Char` (Python strings index by code point, as `List Char`
    does).
  * `should_auto_read` from `claude-code-hook.py`, with the
    `os.path.exists` test an explicit boolean input.
-/

namespace TtsAddon

/-- Python truthiness of the `afplay_pid` field: `None` and `0` are falsy,
any other int is truthy (`if self.afplay_pid:`). -/
def pidTruthy : Option Nat → Bool
  | none => false
  | some p => p != 0

/-- State of `TTSController.__init__` / mutated by its methods
(`tts_gui.py`, lines 16-67). -/
structure TTSController where
  afplay_pid : Option Nat
  is_playing : Bool
  is_paused : Bool
deriving DecidableEq, Repr

/-- `TTSController.__init__`: `afplay_pid = None`, both flags false. -/
def initController : TTSController := ⟨none, false, false⟩

/-- `start_playback`: `subprocess.Popen(["afplay", audio_file])` either
yields a pid (`spawn = some pid`) and the method stores it and sets
`is_playing = True`, `is_paused = False`, returning `True`; or raises
(`spawn = none`) and the method returns `False` leaving every field
unchanged. -/
def start_playback (c : TTSController) (spawn : Option Nat) :
    Bool × TTSController :=
  match spawn with
  | some pid => (true, ⟨some pid, true, false⟩)
  | none => (false, c)

/-- `pause_playback`: guarded by
`if self.afplay_pid and self.is_playing and not self.is_paused:`;
inside, `os.kill(pid, SIGSTOP)` either succeeds (`alive = true`), after
which `is_paused := True` and the method returns `True`, or raises
(`alive = false`), caught by the bare `except:` returning `False` with no
field modified.  Outside the guard the method returns `False`. -/
def pause_playback (c : TTSController) (alive : Bool) :
    Bool × TTSController :=
  if pidTruthy c.afplay_pid && c.is_playing && !c.is_paused then
    if alive then (true, { c with is_paused := true })
    else (false, c)
  else (false, c)

/-- `resume_playback`: guarded by
`if self.afplay_pid and self.is_playing and self.is_paused:`; on a
delivered `SIGCONT` sets `is_paused := False` returning `True`; a raised
`os.kill` is caught and `False` returned with no field modified. -/
def resume_playback (c : TTSController) (alive : Bool) :
    Bool × TTSController :=
  if pidTruthy c.afplay_pid && c.is_playing && c.is_paused then
    if alive then (true, { c with is_paused := false })
    else (false, c)
  else (false, c)

/-- `stop_playback`: guarded by `if self.afplay_pid:`; on a delivered
`SIGTERM` clears all three fields and returns `True`; a raised `os.kill`
is caught and `False` returned with no field modified; with no tracked
pid the method returns `False` immediately. -/
def stop_playback (c : TTSController) (alive : Bool) :
    Bool × TTSController :=
  if pidTruthy c.afplay_pid then
    if alive then (true, ⟨none, false, false⟩)
    else (false, c)
  else (false, c)

/-- Abstract states of the spec's playback state machine, read off the
controller's fields.  The source collapses `IDLE`, `STOPPED` and
`FINISHED`: after `stop_playback` the fields equal `initController`, and
natural process exit changes no controller field at all. -/
inductive TtsState where
  | IDLE
  | PLAYING
  | PAUSED
  | STOPPED
  | FINISHED
deriving DecidableEq, Repr

/-- The spec state carried by the controller's fields: a truthy pid with
`is_playing` set is `PLAYING` or `PAUSED` according to `is_paused`;
everything else reads as `IDLE` (the untracked states). -/
def ctrlState (c : TTSController) : TtsState :=
  if pidTruthy c.afplay_pid then
    if c.is_playing then
      if c.is_paused then .PAUSED else .PLAYING
    else .IDLE
  else .IDLE

/-- One GUI-driven controller call together with its environment input:
the spawn outcome for `start`, the `os.kill` outcome for the others. -/
inductive Op where
  | start (spawn : Option Nat)
  | pause (alive : Bool)
  | resume (alive : Bool)
  | stop (alive : Bool)
deriving DecidableEq, Repr

/-- State reached after one controller call (return value discarded). -/
def step (c : TTSController) : Op → TTSController
  | .start spawn => (start_playback c spawn).2
  | .pause alive => (pause_playback c alive).2
  | .resume alive => (resume_playback c alive).2
  | .stop alive => (stop_playback c alive).2

/-- State reached after a sequence of controller calls. -/
def run (c : TTSController) (ops : List Op) : TTSController :=
  ops.foldl step c

/-- `true` exactly on `Op.start`. -/
def Op.isStart : Op → Bool
  | .start _ => true
  | _ => false

/-- The controller tracks a live-looking playing session: a truthy pid
with `is_playing` set (the states the spec calls `PLAYING`/`PAUSED`). -/
def trackedPlaying (c : TTSController) : Bool :=
  pidTruthy c.afplay_pid && c.is_playing

/-! ## `VoiceInterruptController` (`voice_interrupt_gui.py`) -/

/-- Outcome of `subprocess.run(["pgrep", "afplay"], ...)` in
`find_audio_processes`: either the call raised (`error`), or it returned
with a `returncode` and the parsed pid list of its stdout. -/
inductive PgrepOutcome where
  | error
  | ok (returncode : Int) (pids : List Nat)
deriving DecidableEq, Repr

/-- `find_audio_processes` (lines 25-35): `processes = []`; inside
`try`, on `returncode == 0` the stdout pids are taken; any exception is
caught (printing only) and the empty list stands; a nonzero returncode
also leaves the initial empty list. -/
def find_audio_processes : PgrepOutcome → List Nat
  | .error => []
  | .ok rc pids => if rc = 0 then pids else []

/-- The counting loop shared by `stop_all_audio` / `pause_all_audio` /
`resume_all_audio`: for each discovered pid, `os.kill(pid, sig)`; a
delivered signal (`alive pid = true`) increments the counter, an
`OSError` is passed over. -/
def signalAll (discovered : List Nat) (alive : Nat → Bool) : Nat :=
  discovered.foldl (fun n pid => if alive pid then n + 1 else n) 0

/-- Executable names swept by the `killall` fallback of
`stop_all_audio` (Method 2, lines 47-53). -/
def killallSweep : List (List Char) :=
  ["afplay", "aplay", "paplay"].map String.toList

/-- `stop_all_audio`: Method 1 sends `SIGTERM` to every discovered pid,
counting deliveries; Method 2 runs `killall` on each swept name (a side
effect that never feeds back into `stopped_count`); the return value is
`stopped_count > 0`.  We return the boolean together with the sweep's
target names to record that the sweep is always issued. -/
def stop_all_audio (discovered : List Nat) (alive : Nat → Bool) :
    Bool × List (List Char) :=
  (decide (0 < signalAll discovered alive), killallSweep)

/-- `pause_all_audio`: sends `SIGSTOP` to every discovered pid, counting
deliveries into `paused_count`, and returns `paused_count > 0`. -/
def pause_all_audio (discovered : List Nat) (alive : Nat → Bool) : Bool :=
  decide (0 < signalAll discovered alive)

/-- `resume_all_audio`: sends `SIGCONT` to every discovered pid, counting
deliveries into `resumed_count`, and returns `resumed_count > 0`. -/
def resume_all_audio (discovered : List Nat) (alive : Nat → Bool) : Bool :=
  decide (0 < signalAll discovered alive)

/-! ## `fast_read` text preparation (`fast_tts.py`) -/

/-- Scanning loop of Python `str.replace(pat, rep)` over code-point
lists: at each position, a leading occurrence of `pat` is replaced by
`rep` and the scan continues after it, otherwise one character is kept.
`fuel` bounds the number of scan steps; every step consumes at least one
input character (the patterns of `fast_read` are nonempty), so the
input's length is enough fuel and the `fuel = 0` fallback is never
reached from `replaceList`. -/
def replaceListGo (pat rep : List Char) : Nat → List Char → List Char
  | _, [] => []
  | 0, s => s
  | fuel + 1, c :: rest =>
    if pat.isPrefixOf (c :: rest) && !pat.isEmpty then
      rep ++ replaceListGo pat rep fuel (rest.drop (pat.length - 1))
    else
      c :: replaceListGo pat rep fuel rest

/-- Python `str.replace(pat, rep)` over code-point lists: replaces every
non-overlapping occurrence of `pat`, scanning left to right. -/
def replaceList (pat rep s : List Char) : List Char :=
  replaceListGo pat rep s.length s

/-- The "Quick content cleanup for speech" block of `fast_read`
(lines 50-54): code fences become " code block ", `#` and `*` are
dropped, `-` becomes a space. -/
def cleanForSpeech (content : List Char) : List Char :=
  let content := replaceList ("```".toList) (" code block ".toList) content
  let content := replaceList ['#'] [] content
  let content := replaceList ['*'] [] content
  let content := replaceList ['-'] [' '] content
  content

/-- `max_chunk_size = 4000  # Leave some buffer` in `fast_read`. -/
def max_chunk_size : Nat := 4000

/-- The marker appended on truncation:
`"... Content truncated for TTS playback."`. -/
def truncMarker : List Char := "... Content truncated for TTS playback.".toList

/-- The text handed to `client.audio.speech.create(..., input=content, ...)`:
the cleaned content, truncated to its first `max_chunk_size` code points
with `truncMarker` appended when `len(content) > max_chunk_size`
(lines 56-62). -/
def prepareTtsInput (content : List Char) : List Char :=
  let content := cleanForSpeech content
  if max_chunk_size < content.length then
    content.take max_chunk_size ++ truncMarker
  else
    content

/-! ## `should_auto_read` (`claude-code-hook.py`) -/

/-- `Path(file_path).name` for the paths the hook sees: trailing slashes
are stripped, then the component after the last `/` is taken. -/
def pathName (path : List Char) : List Char :=
  let stripped := (path.reverse.dropWhile (· = '/')).reverse
  (stripped.reverse.takeWhile (· != '/')).reverse

/-- Python's substring test `pat in s` over code-point lists: some
suffix of `s` starts with `pat`. -/
def containsSub (pat : List Char) : List Char → Bool
  | [] => pat.isEmpty
  | c :: rest => pat.isPrefixOf (c :: rest) || containsSub pat rest

/-- The `auto_read_patterns` list of `should_auto_read`, in source
order. -/
def auto_read_patterns : List (List Char) :=
  ["implementation-summary", "summary", "readme", "implementation",
   "todo", "plan", "requirements"].map String.toList

/-- `should_auto_read(file_path)`: `False` for an empty path
(`not file_path`) or when `os.path.exists(file_path)` is false (the
`fileExists` input); otherwise the lowercased `Path(file_path).name` is
tested for containing any pattern
(`any(pattern in filename for pattern in auto_read_patterns)`). -/
def should_auto_read (fileExists : Bool) (path : List Char) : Bool :=
  if path.isEmpty || !fileExists then false
  else
    let filename := (pathName path).map Char.toLower
    auto_read_patterns.any (fun pat => containsSub pat filename)

/-- The six keywords named by the documentation of the auto-read
classifier (the source's list adds `implementation-summary`, which is
subsumed by `summary`). -/
def claimKeywords : List (List Char) :=
  ["summary", "readme", "implementation", "todo", "plan",
   "requirements"].map String.toList

/-! ## Helper lemmas -/

lemma ctrlState_PLAYING_iff (c : TTSController) :
    ctrlState c = .PLAYING ↔
      (pidTruthy c.afplay_pid && c.is_playing && !c.is_paused) = true := by
  unfold ctrlState
  cases hp : pidTruthy c.afplay_pid <;> cases hpl : c.is_playing <;>
    cases hpa : c.is_paused <;> simp [hp, hpl, hpa]

lemma ctrlState_PAUSED_iff (c : TTSController) :
    ctrlState c = .PAUSED ↔
      (pidTruthy c.afplay_pid && c.is_playing && c.is_paused) = true := by
  unfold ctrlState
  cases hp : pidTruthy c.afplay_pid <;> cases hpl : c.is_playing <;>
    cases hpa : c.is_paused <;> simp [hp, hpl, hpa]

lemma pause_dead (c : TTSController) : pause_playback c false = (false, c) := by
  unfold pause_playback
  split <;> rfl

lemma resume_dead (c : TTSController) : resume_playback c false = (false, c) := by
  unfold resume_playback
  split <;> rfl

lemma stop_dead (c : TTSController) : stop_playback c false = (false, c) := by
  unfold stop_playback
  split <;> rfl

lemma step_preserves_paused_imp_playing (c : TTSController) (o : Op)
    (h : c.is_paused = true → c.is_playing = true) :
    (step c o).is_paused = true → (step c o).is_playing = true := by
  cases o with
  | start spawn =>
    cases spawn with
    | none => simpa [step, start_playback] using h
    | some p => simp [step, start_playback]
  | pause alive =>
    simp only [step, pause_playback]
    split
    · next hg =>
      simp only [Bool.and_eq_true, Bool.not_eq_true'] at hg
      split <;> simp [hg.1.2]
    · exact h
  | resume alive =>
    simp only [step, resume_playback]
    split
    · next hg =>
      simp only [Bool.and_eq_true] at hg
      split <;> simp [hg.1.2, h]
    · exact h
  | stop alive =>
    simp only [step, stop_playback]
    split
    · split
      · simp
      · exact h
    · exact h

lemma run_preserves_paused_imp_playing (ops : List Op) (c : TTSController)
    (h : c.is_paused = true → c.is_playing = true) :
    (run c ops).is_paused = true → (run c ops).is_playing = true := by
  induction ops generalizing c with
  | nil => exact h
  | cons o rest ih =>
    exact ih (step c o) (step_preserves_paused_imp_playing c o h)

lemma step_not_tracked (c : TTSController) (o : Op)
    (ho : o.isStart = false) (h : trackedPlaying c = false) :
    trackedPlaying (step c o) = false := by
  cases o with
  | start spawn => simp [Op.isStart] at ho
  | pause alive =>
    simp only [step, pause_playback]
    split
    · next hg =>
      simp only [Bool.and_eq_true, Bool.not_eq_true'] at hg
      exfalso
      rw [trackedPlaying, hg.1.1, hg.1.2] at h
      simp at h
    · exact h
  | resume alive =>
    simp only [step, resume_playback]
    split
    · next hg =>
      simp only [Bool.and_eq_true] at hg
      exfalso
      rw [trackedPlaying, hg.1.1, hg.1.2] at h
      simp at h
    · exact h
  | stop alive =>
    simp only [step, stop_playback]
    split
    · split
      · simp [trackedPlaying, pidTruthy]
      · exact h
    · exact h

lemma run_not_tracked (ops : List Op) :
    ∀ c : TTSController, ops.all (fun o => !o.isStart) = true →
      trackedPlaying c = false → trackedPlaying (run c ops) = false := by
  induction ops with
  | nil => exact fun c _ h => h
  | cons o rest ih =>
    intro c hops h
    rw [List.all_cons, Bool.and_eq_true] at hops
    have h1 : o.isStart = false := by simpa using hops.1
    exact ih (step c o) hops.2 (step_not_tracked c o h1 h)

lemma signalAll_foldl (discovered : List Nat) (alive : Nat → Bool) (n : Nat) :
    discovered.foldl (fun n pid => if alive pid then n + 1 else n) n
      = n + (discovered.filter alive).length := by
  induction discovered generalizing n with
  | nil => simp
  | cons p rest ih =>
    simp only [List.foldl_cons, List.filter_cons]
    cases hp : alive p <;> simp [ih, Nat.add_assoc, Nat.add_comm 1]

lemma signalAll_eq_filter_length (discovered : List Nat) (alive : Nat → Bool) :
    signalAll discovered alive = (discovered.filter alive).length := by
  simpa using signalAll_foldl discovered alive 0

lemma signalAll_pos_iff (discovered : List Nat) (alive : Nat → Bool) :
    0 < signalAll discovered alive ↔ ∃ p ∈ discovered, alive p = true := by
  rw [signalAll_eq_filter_length, List.length_pos]
  simp [Ne, List.filter_eq_nil_iff]

lemma containsSub_iff_isInfix (pat s : List Char) :
    containsSub pat s = true ↔ pat <:+: s := by
  induction s with
  | nil =>
    simp [containsSub, List.isEmpty_iff, List.infix_nil]
  | cons c rest ih =>
    rw [containsSub, List.infix_cons_iff]
    simp [List.isPrefixOf_iff_prefix, ih]

lemma containsSub_mono {p q s : List Char} (hpq : containsSub p q = true)
    (hqs : containsSub q s = true) : containsSub p s = true := by
  rw [containsSub_iff_isInfix] at *
  exact hpq.trans hqs

lemma any_patterns_eq (s : List Char) :
    auto_read_patterns.any (fun pat => containsSub pat s)
      = claimKeywords.any (fun kw => containsSub kw s) := by
  cases hIS : containsSub ("implementation-summary".toList) s with
  | false =>
    simp only [auto_read_patterns, claimKeywords, List.map, List.any_cons,
      List.any_nil, hIS, Bool.false_or]
  | true =>
    have hs : containsSub ("summary".toList) s = true :=
      containsSub_mono (by decide) hIS
    simp only [auto_read_patterns, claimKeywords, List.map, List.any_cons,
      List.any_nil, hIS, hs, Bool.true_or, Bool.or_true]

lemma replaceListGo_replicate_of_head_ne (pat rep : List Char) (ch : Char)
    (hh : pat.head? ≠ some ch) :
    ∀ (fuel n : Nat),
      replaceListGo pat rep fuel (List.replicate n ch) = List.replicate n ch := by
  intro fuel
  induction fuel with
  | zero =>
    intro n
    cases n <;> rfl
  | succ fuel ih =>
    intro n
    cases n with
    | zero => rfl
    | succ n =>
      rw [List.replicate_succ, replaceListGo]
      have hcond :
          (pat.isPrefixOf (ch :: List.replicate n ch) && !pat.isEmpty) = false := by
        cases pat with
        | nil => rfl
        | cons p ps =>
          have hp : (p == ch) = false := by
            refine beq_eq_false_iff_ne.mpr fun he => hh ?_
            rw [he]
            rfl
          simp [List.isPrefixOf, hp]
      rw [hcond]
      simp [ih n]

lemma replaceList_replicate_of_head_ne (pat rep : List Char) (ch : Char)
    (hh : pat.head? ≠ some ch) (n : Nat) :
    replaceList pat rep (List.replicate n ch) = List.replicate n ch :=
  replaceListGo_replicate_of_head_ne pat rep ch hh _ n

lemma cleanForSpeech_replicate_a (n : Nat) :
    cleanForSpeech (List.replicate n 'a') = List.replicate n 'a' := by
  show replaceList ['-'] [' '] (replaceList ['*'] [] (replaceList ['#'] []
      (replaceList ("```".toList) (" code block ".toList)
        (List.replicate n 'a')))) = List.replicate n 'a'
  rw [replaceList_replicate_of_head_ne _ _ 'a' (by decide) n,
    replaceList_replicate_of_head_ne _ _ 'a' (by decide) n,
    replaceList_replicate_of_head_ne _ _ 'a' (by decide) n,
    replaceList_replicate_of_head_ne _ _ 'a' (by decide) n]

/-! ## Claim theorems -/

/-- C1 (counterexample): from `PLAYING` with the process gone,
`pause_playback` returns `False` but leaves every controller field
unchanged — the state is still `PLAYING`, not `FINISHED`; the same holds
for `resume_playback` from `PAUSED`, which stays `PAUSED`. -/
theorem pause_dead_state_not_finished :
    pause_playback ⟨some 5, true, false⟩ false
      = (false, ⟨some 5, true, false⟩) ∧
    ctrlState (pause_playback ⟨some 5, true, false⟩ false).2 = .PLAYING ∧
    resume_playback ⟨some 5, true, true⟩ false
      = (false, ⟨some 5, true, true⟩) ∧
    ctrlState (resume_playback ⟨some 5, true, true⟩ false).2 = .PAUSED ∧
    TtsState.PLAYING ≠ TtsState.FINISHED ∧
    TtsState.PAUSED ≠ TtsState.FINISHED := by
  decide

/-- C1 (amended): if the target process no longer exists when `pause()`
(resp. `resume()`) sends its signal, the operation fails by returning
`False`, and the session's state does not change at all — it remains
`PLAYING` (resp. `PAUSED`) rather than becoming `FINISHED`. -/
theorem pause_resume_dead_process_state_unchanged (c : TTSController) :
    (ctrlState c = .PLAYING → pause_playback c false = (false, c)) ∧
    (ctrlState c = .PAUSED → resume_playback c false = (false, c)) :=
  ⟨fun _ => pause_dead c, fun _ => resume_dead c⟩

/-- Witness for `pause_resume_dead_process_state_unchanged` at two
concrete controllers, one `PLAYING` and one `PAUSED`. -/
theorem pause_resume_dead_process_state_unchanged_witness :
    pause_playback ⟨some 5, true, false⟩ false
      = (false, ⟨some 5, true, false⟩) ∧
    resume_playback ⟨some 7, true, true⟩ false
      = (false, ⟨some 7, true, true⟩) :=
  ⟨(pause_resume_dead_process_state_unchanged ⟨some 5, true, false⟩).1
      (by decide),
   (pause_resume_dead_process_state_unchanged ⟨some 7, true, true⟩).2
      (by decide)⟩

/-- C2: `stop_playback` is idempotent.  With no tracked pid it is a no-op
returning `false` (never an error: the model is total, matching the
method's bare `except:`); after a successful stop every further stop is a
no-op returning `false`; and no start-free call sequence (in particular
repeated stops) ever resurrects a tracked playing session — if the
controller tracks a playing session afterwards, it already did before. -/
theorem stop_idempotent (c : TTSController) (a : Bool) :
    (pidTruthy c.afplay_pid = false → stop_playback c a = (false, c)) ∧
    ((stop_playback c a).1 = true →
      ∀ b, stop_playback (stop_playback c a).2 b
        = (false, (stop_playback c a).2)) ∧
    (∀ ops : List Op, ops.all (fun o => !o.isStart) = true →
      trackedPlaying (run (stop_playback c a).2 ops) = true →
      trackedPlaying (stop_playback c a).2 = true) := by
  refine ⟨fun h => ?_, fun h b => ?_, fun ops hops h => ?_⟩
  · unfold stop_playback
    rw [h]
    rfl
  · have hs : (stop_playback c a).2 = ⟨none, false, false⟩ := by
      unfold stop_playback at h ⊢
      split at h
      next hp =>
        split at h
        next ha => simp [hp, ha]
        next ha => exact absurd h (by simp)
      next hp => exact absurd h (by simp)
    rw [hs]
    rfl
  · by_contra hc
    rw [Bool.not_eq_true] at hc
    rw [run_not_tracked ops _ hops hc] at h
    exact absurd h (by simp)

/-- Witness for `stop_idempotent`: stop from the initial (untracked)
state is a `false` no-op; after a successful stop a second stop returns
`false` and changes nothing; a failed stop followed by a start-free call
keeping the session tracked implies the session was tracked already. -/
theorem stop_idempotent_witness :
    stop_playback initController true = (false, initController) ∧
    stop_playback (stop_playback ⟨some 5, true, false⟩ true).2 false
      = (false, (stop_playback ⟨some 5, true, false⟩ true).2) ∧
    trackedPlaying (stop_playback ⟨some 5, true, false⟩ false).2 = true :=
  ⟨(stop_idempotent initController true).1 (by decide),
   ((stop_idempotent ⟨some 5, true, false⟩ true).2.1 (by decide)) false,
   (stop_idempotent ⟨some 5, true, false⟩ false).2.2 [.pause true]
      (by decide) (by decide)⟩

/-- C4: from `PLAYING` with the process alive for both signals,
`pause_playback` then `resume_playback` returns the session to `PLAYING`,
the stored `afplay_pid` is unchanged, and in fact the whole controller
state round-trips. -/
theorem pause_resume_round_trip (c : TTSController)
    (h : ctrlState c = .PLAYING) :
    ctrlState (resume_playback (pause_playback c true).2 true).2
      = .PLAYING ∧
    (resume_playback (pause_playback c true).2 true).2.afplay_pid
      = c.afplay_pid ∧
    (resume_playback (pause_playback c true).2 true).2 = c := by
  rw [ctrlState_PLAYING_iff] at h
  simp only [Bool.and_eq_true, Bool.not_eq_true'] at h
  obtain ⟨⟨hpid, hpl⟩, hpa⟩ := h
  have h1 : (pause_playback c true).2 = { c with is_paused := true } := by
    unfold pause_playback
    simp [hpid, hpl, hpa]
  have h2 : (resume_playback { c with is_paused := true } true).2
      = { c with is_paused := false } := by
    unfold resume_playback
    simp [hpid, hpl]
  have h3 : ({ c with is_paused := false } : TTSController) = c := by
    cases c
    simp_all
  rw [h1, h2, h3]
  exact ⟨by rw [ctrlState_PLAYING_iff]; simp [hpid, hpl, hpa], rfl, rfl⟩

/-- Witness for `pause_resume_round_trip` at a concrete `PLAYING`
controller. -/
theorem pause_resume_round_trip_witness :
    ctrlState (resume_playback
        (pause_playback ⟨some 7, true, false⟩ true).2 true).2 = .PLAYING ∧
    (resume_playback (pause_playback ⟨some 7, true, false⟩ true).2
        true).2.afplay_pid = some 7 ∧
    (resume_playback (pause_playback ⟨some 7, true, false⟩ true).2
        true).2 = ⟨some 7, true, false⟩ :=
  pause_resume_round_trip ⟨some 7, true, false⟩ (by decide)

/-- C5: from `PAUSED`, `resume_playback` (signal delivered) returns
`True` and moves to `PLAYING`; calling it again in `PLAYING` returns
`False` with no state change; and in general `pause_playback` outside
`PLAYING` and `resume_playback` outside `PAUSED` return `False` leaving
every controller field unchanged, whatever the `os.kill` outcome. -/
theorem pause_resume_guards (c : TTSController) :
    (ctrlState c = .PAUSED →
      resume_playback c true = (true, { c with is_paused := false }) ∧
      ctrlState (resume_playback c true).2 = .PLAYING ∧
      ∀ a, resume_playback (resume_playback c true).2 a
        = (false, (resume_playback c true).2)) ∧
    (∀ a, ctrlState c ≠ .PLAYING → pause_playback c a = (false, c)) ∧
    (∀ a, ctrlState c ≠ .PAUSED → resume_playback c a = (false, c)) := by
  refine ⟨fun h => ?_, fun a h => ?_, fun a h => ?_⟩
  · rw [ctrlState_PAUSED_iff] at h
    simp only [Bool.and_eq_true] at h
    obtain ⟨⟨hpid, hpl⟩, hpa⟩ := h
    have h1 : resume_playback c true = (true, { c with is_paused := false }) := by
      unfold resume_playback
      simp [hpid, hpl, hpa]
    refine ⟨h1, ?_, fun a => ?_⟩
    · rw [h1, ctrlState_PLAYING_iff]
      simp [hpid, hpl]
    · rw [h1]
      unfold resume_playback
      rw [if_neg (by simp)]
  · have hg : (pidTruthy c.afplay_pid && c.is_playing && !c.is_paused) = false := by
      cases hv : (pidTruthy c.afplay_pid && c.is_playing && !c.is_paused)
      · rfl
      · exact absurd ((ctrlState_PLAYING_iff c).mpr hv) h
    unfold pause_playback
    rw [hg]
    rfl
  · have hg : (pidTruthy c.afplay_pid && c.is_playing && c.is_paused) = false := by
      cases hv : (pidTruthy c.afplay_pid && c.is_playing && c.is_paused)
      · rfl
      · exact absurd ((ctrlState_PAUSED_iff c).mpr hv) h
    unfold resume_playback
    rw [hg]
    rfl

/-- Witness for `pause_resume_guards`: a concrete `PAUSED` controller
resumes to `PLAYING` and a second resume fails without change; pause on
the initial (untracked) controller fails without change, as does
resume. -/
theorem pause_resume_guards_witness :
    resume_playback ⟨some 9, true, true⟩ true = (true, ⟨some 9, true, false⟩) ∧
    resume_playback (resume_playback ⟨some 9, true, true⟩ true).2 true
      = (false, (resume_playback ⟨some 9, true, true⟩ true).2) ∧
    pause_playback initController true = (false, initController) ∧
    resume_playback initController true = (false, initController) :=
  ⟨((pause_resume_guards ⟨some 9, true, true⟩).1 (by decide)).1,
   ((pause_resume_guards ⟨some 9, true, true⟩).1 (by decide)).2.2 true,
   (pause_resume_guards initController).2.1 true (by decide),
   (pause_resume_guards initController).2.2 true (by decide)⟩

/-- C9: `find_audio_processes` is total (never throws) and returns `[]`
both when the `pgrep` invocation raises and when it exits nonzero; and
signaling a pid that no longer exists (`alive = false`, `os.kill`
raising) makes each of `pause_playback` / `resume_playback` /
`stop_playback` return `False` with the controller unchanged — the
raised `OSError` is always caught, never an unhandled fault. -/
theorem discovery_and_signal_safety (rc : Int) (pids : List Nat)
    (c : TTSController) :
    find_audio_processes .error = [] ∧
    (rc ≠ 0 → find_audio_processes (.ok rc pids) = []) ∧
    pause_playback c false = (false, c) ∧
    resume_playback c false = (false, c) ∧
    stop_playback c false = (false, c) := by
  refine ⟨rfl, fun h => ?_, pause_dead c, resume_dead c, stop_dead c⟩
  show (if rc = 0 then pids else []) = []
  rw [if_neg h]

/-- Witness for `discovery_and_signal_safety` with `pgrep` exiting 1
(no match) and a concrete tracked controller whose process is gone. -/
theorem discovery_and_signal_safety_witness :
    find_audio_processes .error = [] ∧
    find_audio_processes (.ok 1 [4, 5]) = [] ∧
    pause_playback ⟨some 3, true, false⟩ false
      = (false, ⟨some 3, true, false⟩) ∧
    resume_playback ⟨some 3, true, false⟩ false
      = (false, ⟨some 3, true, false⟩) ∧
    stop_playback ⟨some 3, true, false⟩ false
      = (false, ⟨some 3, true, false⟩) :=
  ⟨(discovery_and_signal_safety 1 [4, 5] ⟨some 3, true, false⟩).1,
   (discovery_and_signal_safety 1 [4, 5] ⟨some 3, true, false⟩).2.1
      (by decide),
   (discovery_and_signal_safety 1 [4, 5] ⟨some 3, true, false⟩).2.2.1,
   (discovery_and_signal_safety 1 [4, 5] ⟨some 3, true, false⟩).2.2.2.1,
   (discovery_and_signal_safety 1 [4, 5] ⟨some 3, true, false⟩).2.2.2.2⟩

/-- C10: in every controller state reachable from the initial state by
any sequence of start/pause/resume/stop calls (under any environment),
`is_paused = true` implies `is_playing = true`: the controller is never
paused without being in a tracked playing session. -/
theorem paused_implies_playing_invariant (ops : List Op)
    (h : (run initController ops).is_paused = true) :
    (run initController ops).is_playing = true :=
  run_preserves_paused_imp_playing ops initController (by simp [initController]) h

/-- Witness for `paused_implies_playing_invariant` on the sequence
start-then-pause, which does reach a paused state. -/
theorem paused_implies_playing_invariant_witness :
    (run initController [.start (some 5), .pause true]).is_playing = true :=
  paused_implies_playing_invariant [.start (some 5), .pause true] (by decide)

/-- C3 (counterexample): `pause_all_audio` / `resume_all_audio` do not
return the count of affected processes — the internal counter
distinguishes two live pids from one, but the returned value is the same
boolean `true` in both cases (the methods return `count > 0`). -/
theorem pauseAll_returns_flag_not_count :
    signalAll [1, 2] (fun _ => true) = 2 ∧
    signalAll [3] (fun _ => true) = 1 ∧
    pause_all_audio [1, 2] (fun _ => true)
      = pause_all_audio [3] (fun _ => true) ∧
    resume_all_audio [1, 2] (fun _ => true)
      = resume_all_audio [3] (fun _ => true) ∧
    pause_all_audio [1, 2] (fun _ => true) = true := by
  decide

/-- C3 (amended): `pause_all_audio` / `resume_all_audio` discover pids
and best-effort signal each; internally they count the pids successfully
signaled (the count equals the number of discovered pids whose signal was
delivered), but each returns only the boolean `count > 0`: `true` iff at
least one process was affected. -/
theorem pauseAll_resumeAll_bool (discovered : List Nat)
    (alive : Nat → Bool) :
    (pause_all_audio discovered alive = true ↔
      ∃ p ∈ discovered, alive p = true) ∧
    (resume_all_audio discovered alive = true ↔
      ∃ p ∈ discovered, alive p = true) ∧
    signalAll discovered alive = (discovered.filter alive).length := by
  refine ⟨?_, ?_, signalAll_eq_filter_length discovered alive⟩ <;>
    simpa [pause_all_audio, resume_all_audio] using
      signalAll_pos_iff discovered alive

/-- C6: `stop_all_audio` sends `SIGTERM` to every discovered pid,
tolerating per-pid failures (the model is total), always additionally
issues the `killall` fallback sweep over the audio-player executable
names, and returns `true` iff at least one per-pid signal attempt did
not immediately fail (was delivered); with zero discovered processes it
returns `false`, not an error. -/
theorem stopAll_flag_and_sweep (discovered : List Nat)
    (alive : Nat → Bool) :
    ((stop_all_audio discovered alive).1 = true ↔
      ∃ p ∈ discovered, alive p = true) ∧
    (stop_all_audio discovered alive).2 = killallSweep ∧
    (stop_all_audio [] alive).1 = false := by
  refine ⟨?_, rfl, rfl⟩
  simpa [stop_all_audio] using signalAll_pos_iff discovered alive

/-- C7: the text handed to the speech-synthesis call is the cleaned
content itself when its length is at most `max_chunk_size` (4000), and
exactly its first 4000 code points with `truncMarker` appended when it is
longer. -/
theorem fast_read_truncation (content : List Char) :
    (max_chunk_size < (cleanForSpeech content).length →
      prepareTtsInput content
        = (cleanForSpeech content).take max_chunk_size ++ truncMarker) ∧
    ((cleanForSpeech content).length ≤ max_chunk_size →
      prepareTtsInput content = cleanForSpeech content) := by
  unfold prepareTtsInput
  constructor
  · intro h
    rw [if_pos h]
  · intro h
    rw [if_neg (by omega)]

/-- Witness for `fast_read_truncation`: 5000 `'a'`s (cleanup leaves them
unchanged) truncate to the first 4000 plus the marker; a short text is
passed through as its cleanup. -/
theorem fast_read_truncation_witness :
    prepareTtsInput (List.replicate 5000 'a')
      = List.replicate 4000 'a' ++ truncMarker ∧
    prepareTtsInput ("hello".toList) = "hello".toList := by
  constructor
  · have h1 : cleanForSpeech (List.replicate 5000 'a')
        = List.replicate 5000 'a' := cleanForSpeech_replicate_a 5000
    have h2 := (fast_read_truncation (List.replicate 5000 'a')).1
      (by rw [h1, List.length_replicate]; decide)
    rw [h2, h1, List.take_replicate]
    norm_num [max_chunk_size]
  · have h2 := (fast_read_truncation ("hello".toList)).2 (by decide)
    rw [h2]
    decide

/-- C8: `should_auto_read` accepts exactly the existing files whose
lowercased name contains one of the six documented keywords (the
source's seventh pattern `implementation-summary` is subsumed by
`summary`); in particular `IMPLEMENTATION-SUMMARY.md` is accepted and
`notes.txt` is not. -/
theorem should_auto_read_iff :
    (∀ (fileExists : Bool) (path : List Char),
      should_auto_read fileExists path = true ↔
        (fileExists = true ∧ ∃ kw ∈ claimKeywords,
          containsSub kw ((pathName path).map Char.toLower) = true)) ∧
    should_auto_read true ("IMPLEMENTATION-SUMMARY.md".toList) = true ∧
    should_auto_read true ("notes.txt".toList) = false := by
  refine ⟨fun fileExists path => ?_, by decide, by decide⟩
  unfold should_auto_read
  split
  · next hguard =>
    simp only [Bool.or_eq_true, List.isEmpty_iff, Bool.not_eq_true'] at hguard
    constructor
    · intro h
      exact absurd h (by simp)
    · rintro ⟨hfe, kw, hkw, hc⟩
      rcases hguard with hguard | hguard
      · subst hguard
        have : containsSub kw ([] : List Char) = false := by
          fin_cases hkw <;> decide
        rw [show pathName [] = ([] : List Char) from rfl] at hc
        simp only [List.map_nil] at hc
        rw [this] at hc
        exact absurd hc (by simp)
      · rw [hfe] at hguard
        exact absurd hguard (by simp)
  · next hguard =>
    simp only [Bool.or_eq_true, List.isEmpty_iff, Bool.not_eq_true',
      not_or] at hguard
    rw [any_patterns_eq, List.any_eq_true]
    constructor
    · rintro ⟨kw, hkw, hc⟩
      exact ⟨by simpa using hguard.2, kw, hkw, hc⟩
    · rintro ⟨_, kw, hkw, hc⟩
      exact ⟨kw, hkw, hc⟩

end TtsAddon
